import Mathlib

/-! Shallow embedding of the credential-manager and authenticated-request-client
core of a lending-API bridge (modules `batmc_mcp.auth` and
`batmc_mcp.api_client`).  Network effects are made explicit: every operation
threads a world state `W` holding the session, a clock counter, call counters
and an event trace, and consumes responses from an environment oracle `Env`.
Time is modelled by an abstract stream of clock readings (`Env.time`), one per
`time.time()` call in the source.  Errors mirror the exceptions the Python code
can raise: `authFailure` for `httpx.HTTPStatusError` out of
`raise_for_status()`, `transportFailure` for transport-level exceptions, and
`keyError` for a missing field in a response body. -/

/-- The session state owned by `AuthManager` (`auth.py`, `__init__`):
`access_token`, `refresh_token` (both `None` before first login) and
`expires_at` (a timestamp, initially `0`). -/
structure Session where
  access_token : Option String
  refresh_token : Option String
  expires_at : Int
  deriving Repr, DecidableEq

/-- The fresh session built by `AuthManager.__init__` (`auth.py` lines 18-20). -/
def Session.init : Session := ⟨none, none, 0⟩

/-- Static configuration fields of `AuthManager.__init__`. -/
structure AuthConfig where
  supabase_url : String
  anon_key : String
  email : String
  password : String
  deriving Repr, DecidableEq

/-- A parsed identity-provider response body.  Each field is optional so that
malformed bodies (missing keys, which raise `KeyError` in `_update_tokens`)
can be represented. -/
structure TokenData where
  access_token : Option String
  refresh_token : Option String
  expires_in : Option Int
  deriving Repr, DecidableEq

/-- Outcome of an HTTP call to the identity provider: either a transport-level
exception or a response with a status code, a raw body (kept for diagnostics)
and its parsed JSON content. -/
inductive ProviderResult where
  | transport (msg : String)
  | response (status : Nat) (body : String) (data : TokenData)
  deriving Repr, DecidableEq

/-- Outcome of an HTTP call to the lending API: either a transport-level
exception or a response with a status code and an opaque body. -/
inductive ApiResult where
  | transport (msg : String)
  | response (status : Nat) (body : String)
  deriving Repr, DecidableEq

/-- An `httpx.Response` as returned to callers of the API client. -/
structure HttpResponse where
  status : Nat
  body : String
  deriving Repr, DecidableEq

/-- Exceptions the embedded code can raise. -/
inductive Err where
  | authFailure (status : Nat) (body : String)
  | transportFailure (msg : String)
  | keyError (key : String)
  deriving Repr, DecidableEq

/-- The four HTTP verbs of `APIClient`. -/
inductive Verb where
  | get
  | post
  | put
  | delete
  deriving Repr, DecidableEq

/-- Network events, recorded in order of occurrence.  `apiCall` records the
request the API client sent, including the headers used. -/
inductive Event where
  | loginCall (email : String) (password : String)
  | refreshCall (sentToken : Option String)
  | apiCall (verb : Verb) (path : String) (params : Option String)
      (json : Option String) (headers : List (String × String))
  deriving Repr, DecidableEq

/-- Environment oracle: the clock stream and the responses the outside world
gives to each network call.  `refreshResult` sees the refresh token that was
sent and the index of the refresh call; `apiResult` sees the full request and
the index of the API call. -/
structure Env where
  time : Nat → Int
  loginResult : ProviderResult
  refreshResult : Option String → Nat → ProviderResult
  apiResult : Verb → String → Option String → Option String →
      List (String × String) → Nat → ApiResult

/-- World state threaded through every operation: the session, how many
`time.time()` calls have happened (`clock`), how many provider refresh calls
(`nRefresh`), how many lending-API calls (`nApi`), and the event trace. -/
structure W where
  session : Session
  clock : Nat
  nRefresh : Nat
  nApi : Nat
  trace : List Event
  deriving Repr, DecidableEq

/-- Initial world for a single operation: given session, empty trace. -/
def W.init (s : Session) : W := ⟨s, 0, 0, 0, []⟩

/-- `AuthManager._update_tokens` (`auth.py` lines 52-55).  Python assigns the
three attributes in order, so a missing key raises `KeyError` midway and
leaves the earlier assignments in place.  `time.time()` is read (consuming a
clock tick) before `data["expires_in"]` is looked up. -/
def updateTokens (env : Env) (data : TokenData) (w : W) : Except Err Unit × W :=
  match data.access_token with
  | none => (Except.error (Err.keyError "access_token"), w)
  | some a =>
    let w1 : W := { w with session := { w.session with access_token := some a } }
    match data.refresh_token with
    | none => (Except.error (Err.keyError "refresh_token"), w1)
    | some r =>
      let w2 : W := { w1 with session := { w1.session with refresh_token := some r } }
      let now := env.time w2.clock
      let w3 : W := { w2 with clock := w2.clock + 1 }
      match data.expires_in with
      | none => (Except.error (Err.keyError "expires_in"), w3)
      | some e =>
        (Except.ok (), { w3 with session := { w3.session with expires_at := now + e - 60 } })

/-- `AuthManager.login` (`auth.py` lines 22-32): posts the credentials, calls
`raise_for_status()` (success means a 2xx status) and on success runs
`_update_tokens` on the parsed body. -/
def login (cfg : AuthConfig) (env : Env) (w : W) : Except Err Unit × W :=
  let w1 : W := { w with trace := w.trace ++ [Event.loginCall cfg.email cfg.password] }
  match env.loginResult with
  | ProviderResult.transport m => (Except.error (Err.transportFailure m), w1)
  | ProviderResult.response st body data =>
    if 200 ≤ st ∧ st ≤ 299 then updateTokens env data w1
    else (Except.error (Err.authFailure st body), w1)

/-- `AuthManager.refresh` (`auth.py` lines 34-44): posts the current refresh
token, calls `raise_for_status()` and on success runs `_update_tokens`. -/
def refresh (env : Env) (w : W) : Except Err Unit × W :=
  let sent := w.session.refresh_token
  let res := env.refreshResult sent w.nRefresh
  let w1 : W := { w with trace := w.trace ++ [Event.refreshCall sent],
                         nRefresh := w.nRefresh + 1 }
  match res with
  | ProviderResult.transport m => (Except.error (Err.transportFailure m), w1)
  | ProviderResult.response st body data =>
    if 200 ≤ st ∧ st ≤ 299 then updateTokens env data w1
    else (Except.error (Err.authFailure st body), w1)

/-- The header value `f"Bearer {self.access_token}"`; Python formats `None`
as the string `None`. -/
def bearerString : Option String → String
  | none => "Bearer None"
  | some t => "Bearer " ++ t

/-- `AuthManager.get_headers` (`auth.py` lines 46-50): reads `time.time()`,
refreshes when `now >= expires_at`, then returns the single authorization
header built from the current access token. -/
def get_headers (env : Env) (w : W) : Except Err (List (String × String)) × W :=
  let now := env.time w.clock
  let w1 : W := { w with clock := w.clock + 1 }
  if w1.session.expires_at ≤ now then
    match refresh env w1 with
    | (Except.error e, w2) => (Except.error e, w2)
    | (Except.ok _, w2) =>
      (Except.ok [("Authorization", bearerString w2.session.access_token)], w2)
  else
    (Except.ok [("Authorization", bearerString w1.session.access_token)], w1)

/-- One call on the underlying transport (`self.http.get/post/put/delete`):
records the request, consumes the environment's scripted result. -/
def httpSend (env : Env) (v : Verb) (path : String) (params : Option String)
    (json : Option String) (headers : List (String × String)) (w : W) :
    Except Err HttpResponse × W :=
  let res := env.apiResult v path params json headers w.nApi
  let w1 : W := { w with trace := w.trace ++ [Event.apiCall v path params json headers],
                         nApi := w.nApi + 1 }
  match res with
  | ApiResult.transport m => (Except.error (Err.transportFailure m), w1)
  | ApiResult.response st body => (Except.ok ⟨st, body⟩, w1)

/-- `APIClient.get` (`api_client.py` lines 18-27): fetch headers, send, and on
a 401 force one refresh, refetch headers and resend once. -/
def APIClient.get (env : Env) (path : String) (params : Option String) (w : W) :
    Except Err HttpResponse × W :=
  match get_headers env w with
  | (Except.error e, w1) => (Except.error e, w1)
  | (Except.ok headers, w1) =>
    match httpSend env Verb.get path params none headers w1 with
    | (Except.error e, w2) => (Except.error e, w2)
    | (Except.ok resp, w2) =>
      if resp.status = 401 then
        match refresh env w2 with
        | (Except.error e, w3) => (Except.error e, w3)
        | (Except.ok _, w3) =>
          match get_headers env w3 with
          | (Except.error e, w4) => (Except.error e, w4)
          | (Except.ok headers2, w4) =>
            match httpSend env Verb.get path params none headers2 w4 with
            | (Except.error e, w5) => (Except.error e, w5)
            | (Except.ok resp2, w5) => (Except.ok resp2, w5)
      else (Except.ok resp, w2)

/-- `APIClient.post` (`api_client.py` lines 29-38). -/
def APIClient.post (env : Env) (path : String) (json : Option String) (w : W) :
    Except Err HttpResponse × W :=
  match get_headers env w with
  | (Except.error e, w1) => (Except.error e, w1)
  | (Except.ok headers, w1) =>
    match httpSend env Verb.post path none json headers w1 with
    | (Except.error e, w2) => (Except.error e, w2)
    | (Except.ok resp, w2) =>
      if resp.status = 401 then
        match refresh env w2 with
        | (Except.error e, w3) => (Except.error e, w3)
        | (Except.ok _, w3) =>
          match get_headers env w3 with
          | (Except.error e, w4) => (Except.error e, w4)
          | (Except.ok headers2, w4) =>
            match httpSend env Verb.post path none json headers2 w4 with
            | (Except.error e, w5) => (Except.error e, w5)
            | (Except.ok resp2, w5) => (Except.ok resp2, w5)
      else (Except.ok resp, w2)

/-- `APIClient.put` (`api_client.py` lines 40-49). -/
def APIClient.put (env : Env) (path : String) (json : Option String) (w : W) :
    Except Err HttpResponse × W :=
  match get_headers env w with
  | (Except.error e, w1) => (Except.error e, w1)
  | (Except.ok headers, w1) =>
    match httpSend env Verb.put path none json headers w1 with
    | (Except.error e, w2) => (Except.error e, w2)
    | (Except.ok resp, w2) =>
      if resp.status = 401 then
        match refresh env w2 with
        | (Except.error e, w3) => (Except.error e, w3)
        | (Except.ok _, w3) =>
          match get_headers env w3 with
          | (Except.error e, w4) => (Except.error e, w4)
          | (Except.ok headers2, w4) =>
            match httpSend env Verb.put path none json headers2 w4 with
            | (Except.error e, w5) => (Except.error e, w5)
            | (Except.ok resp2, w5) => (Except.ok resp2, w5)
      else (Except.ok resp, w2)

/-- `APIClient.delete` (`api_client.py` lines 51-60). -/
def APIClient.delete (env : Env) (path : String) (w : W) :
    Except Err HttpResponse × W :=
  match get_headers env w with
  | (Except.error e, w1) => (Except.error e, w1)
  | (Except.ok headers, w1) =>
    match httpSend env Verb.delete path none none headers w1 with
    | (Except.error e, w2) => (Except.error e, w2)
    | (Except.ok resp, w2) =>
      if resp.status = 401 then
        match refresh env w2 with
        | (Except.error e, w3) => (Except.error e, w3)
        | (Except.ok _, w3) =>
          match get_headers env w3 with
          | (Except.error e, w4) => (Except.error e, w4)
          | (Except.ok headers2, w4) =>
            match httpSend env Verb.delete path none none headers2 w4 with
            | (Except.error e, w5) => (Except.error e, w5)
            | (Except.ok resp2, w5) => (Except.ok resp2, w5)
      else (Except.ok resp, w2)

/-- Recognizer for provider refresh events. -/
def isRefreshEvent : Event → Bool
  | Event.refreshCall _ => true
  | _ => false

/-- Recognizer for lending-API call events. -/
def isApiEvent : Event → Bool
  | Event.apiCall _ _ _ _ _ => true
  | _ => false

/-- Recognizer for login events. -/
def isLoginEvent : Event → Bool
  | Event.loginCall _ _ => true
  | _ => false

/-- Number of provider refresh calls recorded in a trace. -/
def refreshCount (tr : List Event) : Nat := (tr.filter isRefreshEvent).length

/-- Number of lending-API calls recorded in a trace. -/
def apiCount (tr : List Event) : Nat := (tr.filter isApiEvent).length

/-- Number of login calls recorded in a trace. -/
def loginCount (tr : List Event) : Nat := (tr.filter isLoginEvent).length

/-- Fixed identity configuration used by the concrete test environments. -/
def cfg0 : AuthConfig := ⟨"https://sb.example", "anon-key", "user@example.com", "pw"⟩

/-- Environment in which every lending-API call answers 200 and every
provider call succeeds (fresh tokens t1/r1, then t2/r2, lifetime 3600). -/
def env200 : Env :=
  { time := fun _ => 100,
    loginResult := ProviderResult.response 200 "okL" ⟨some "tl", some "rl", some 3600⟩,
    refreshResult := fun _ n =>
      if n = 0 then ProviderResult.response 200 "okR" ⟨some "t1", some "r1", some 3600⟩
      else ProviderResult.response 200 "okR" ⟨some "t2", some "r2", some 3600⟩,
    apiResult := fun _ _ _ _ _ _ => ApiResult.response 200 "okbody" }

/-- Environment in which every lending-API call answers 401 while provider
calls succeed. -/
def env401 : Env :=
  { time := fun _ => 100,
    loginResult := ProviderResult.response 200 "okL" ⟨some "tl", some "rl", some 3600⟩,
    refreshResult := fun _ n =>
      if n = 0 then ProviderResult.response 200 "okR" ⟨some "t1", some "r1", some 3600⟩
      else ProviderResult.response 200 "okR" ⟨some "t2", some "r2", some 3600⟩,
    apiResult := fun _ _ _ _ _ _ => ApiResult.response 401 "unauthorized" }

/-- Environment in which every lending-API call fails at the transport level
while provider calls succeed. -/
def envTimeout : Env :=
  { time := fun _ => 100,
    loginResult := ProviderResult.response 200 "okL" ⟨some "tl", some "rl", some 3600⟩,
    refreshResult := fun _ n =>
      if n = 0 then ProviderResult.response 200 "okR" ⟨some "t1", some "r1", some 3600⟩
      else ProviderResult.response 200 "okR" ⟨some "t2", some "r2", some 3600⟩,
    apiResult := fun _ _ _ _ _ _ => ApiResult.transport "timeout" }

/-- Environment in which the identity provider rejects both login and refresh
with a 400, and the lending API answers 401. -/
def envReject : Env :=
  { time := fun _ => 100,
    loginResult := ProviderResult.response 400 "bad credentials" ⟨none, none, none⟩,
    refreshResult := fun _ _ =>
      ProviderResult.response 400 "invalid refresh token" ⟨none, none, none⟩,
    apiResult := fun _ _ _ _ _ _ => ApiResult.response 401 "unauthorized" }

/-- Environment whose provider answers 200 with a malformed body: it carries
an access token but no refresh token and no lifetime. -/
def envMalformed : Env :=
  { time := fun _ => 100,
    loginResult := ProviderResult.response 200 "okL" ⟨some "newA", none, none⟩,
    refreshResult := fun _ _ => ProviderResult.response 200 "okR" ⟨some "newA", none, none⟩,
    apiResult := fun _ _ _ _ _ _ => ApiResult.response 200 "okbody" }

/-- `_update_tokens` records no network event, whatever the body shape. -/
lemma updateTokens_trace (env : Env) (d : TokenData) (w : W) :
    ((updateTokens env d w).2).trace = w.trace := by
  rcases d with ⟨a, r, e⟩
  cases a <;> cases r <;> cases e <;> simp [updateTokens]

/-- Every `refresh` run, whatever its outcome, records exactly one provider
refresh event carrying the refresh token it sent. -/
lemma refresh_trace (env : Env) (w : W) :
    ((refresh env w).2).trace = w.trace ++ [Event.refreshCall w.session.refresh_token] := by
  unfold refresh
  cases h : env.refreshResult w.session.refresh_token w.nRefresh with
  | transport m => simp [h]
  | response st b d =>
    by_cases hs : 200 ≤ st ∧ st ≤ 299
    · simp only [h, if_pos hs]
      rw [updateTokens_trace]
    · simp [h, hs]

/-- Claim C1, counterexample: the claim says a call whose first response is
exactly 401 performs exactly one refresh, but when the session is expired at
entry the initial header fetch already performs a proactive refresh, so a
401-answered GET performs two refreshes in total (trace below has two
`refreshCall` events), even though the retry bound itself holds. -/
theorem C1_counterexample :
    env401.apiResult Verb.get "/x" none none [("Authorization", "Bearer t1")] 0
      = ApiResult.response 401 "unauthorized" ∧
    ((APIClient.get env401 "/x" none (W.init ⟨some "t0", some "r0", 0⟩)).2).trace
      = [Event.refreshCall (some "r0"),
         Event.apiCall Verb.get "/x" none none [("Authorization", "Bearer t1")],
         Event.refreshCall (some "r1"),
         Event.apiCall Verb.get "/x" none none [("Authorization", "Bearer t2")]] ∧
    refreshCount ((APIClient.get env401 "/x" none (W.init ⟨some "t0", some "r0", 0⟩)).2).trace
      = 2 ∧
    (APIClient.get env401 "/x" none (W.init ⟨some "t0", some "r0", 0⟩)).1
      = Except.ok ⟨401, "unauthorized"⟩ :=
  ⟨rfl, rfl, rfl, rfl⟩

/-- Claim C1 (amended): for every verb, when the session is unexpired at the
initial header fetch, the first response is exactly 401, the forced refresh
succeeds, and the refreshed token is unexpired at the post-refresh header
fetch, the operation performs exactly one refresh and exactly one retried
call with refreshed headers to the same path with the same params/body, and
the second response (`st2` may again be 401) is returned as-is with no
further refresh or retry. -/
theorem C1_retry (env : Env) (s : Session) (path : String) (params json : Option String)
    (b1 bR : String) (stR : Nat) (a2 r2 : String) (e2 : Int)
    (stG2 stP2 stU2 stD2 : Nat) (bG2 bP2 bU2 bD2 : String)
    (hfresh : ¬ s.expires_at ≤ env.time 0)
    (hre : env.refreshResult s.refresh_token 0
        = ProviderResult.response stR bR ⟨some a2, some r2, some e2⟩)
    (h200 : 200 ≤ stR) (h299 : stR ≤ 299)
    (hfresh2 : ¬ env.time 1 + e2 - 60 ≤ env.time 2)
    (hG1 : env.apiResult Verb.get path params none
        [("Authorization", bearerString s.access_token)] 0 = ApiResult.response 401 b1)
    (hG2 : env.apiResult Verb.get path params none
        [("Authorization", bearerString (some a2))] 1 = ApiResult.response stG2 bG2)
    (hP1 : env.apiResult Verb.post path none json
        [("Authorization", bearerString s.access_token)] 0 = ApiResult.response 401 b1)
    (hP2 : env.apiResult Verb.post path none json
        [("Authorization", bearerString (some a2))] 1 = ApiResult.response stP2 bP2)
    (hU1 : env.apiResult Verb.put path none json
        [("Authorization", bearerString s.access_token)] 0 = ApiResult.response 401 b1)
    (hU2 : env.apiResult Verb.put path none json
        [("Authorization", bearerString (some a2))] 1 = ApiResult.response stU2 bU2)
    (hD1 : env.apiResult Verb.delete path none none
        [("Authorization", bearerString s.access_token)] 0 = ApiResult.response 401 b1)
    (hD2 : env.apiResult Verb.delete path none none
        [("Authorization", bearerString (some a2))] 1 = ApiResult.response stD2 bD2) :
    (APIClient.get env path params (W.init s) =
      (Except.ok ⟨stG2, bG2⟩,
        ⟨⟨some a2, some r2, env.time 1 + e2 - 60⟩, 3, 1, 2,
          [Event.apiCall Verb.get path params none
              [("Authorization", bearerString s.access_token)],
           Event.refreshCall s.refresh_token,
           Event.apiCall Verb.get path params none
              [("Authorization", bearerString (some a2))]]⟩) ∧
      refreshCount ((APIClient.get env path params (W.init s)).2).trace = 1 ∧
      apiCount ((APIClient.get env path params (W.init s)).2).trace = 2) ∧
    (APIClient.post env path json (W.init s) =
      (Except.ok ⟨stP2, bP2⟩,
        ⟨⟨some a2, some r2, env.time 1 + e2 - 60⟩, 3, 1, 2,
          [Event.apiCall Verb.post path none json
              [("Authorization", bearerString s.access_token)],
           Event.refreshCall s.refresh_token,
           Event.apiCall Verb.post path none json
              [("Authorization", bearerString (some a2))]]⟩) ∧
      refreshCount ((APIClient.post env path json (W.init s)).2).trace = 1 ∧
      apiCount ((APIClient.post env path json (W.init s)).2).trace = 2) ∧
    (APIClient.put env path json (W.init s) =
      (Except.ok ⟨stU2, bU2⟩,
        ⟨⟨some a2, some r2, env.time 1 + e2 - 60⟩, 3, 1, 2,
          [Event.apiCall Verb.put path none json
              [("Authorization", bearerString s.access_token)],
           Event.refreshCall s.refresh_token,
           Event.apiCall Verb.put path none json
              [("Authorization", bearerString (some a2))]]⟩) ∧
      refreshCount ((APIClient.put env path json (W.init s)).2).trace = 1 ∧
      apiCount ((APIClient.put env path json (W.init s)).2).trace = 2) ∧
    (APIClient.delete env path (W.init s) =
      (Except.ok ⟨stD2, bD2⟩,
        ⟨⟨some a2, some r2, env.time 1 + e2 - 60⟩, 3, 1, 2,
          [Event.apiCall Verb.delete path none none
              [("Authorization", bearerString s.access_token)],
           Event.refreshCall s.refresh_token,
           Event.apiCall Verb.delete path none none
              [("Authorization", bearerString (some a2))]]⟩) ∧
      refreshCount ((APIClient.delete env path (W.init s)).2).trace = 1 ∧
      apiCount ((APIClient.delete env path (W.init s)).2).trace = 2) := by
  have hg : APIClient.get env path params (W.init s) =
      (Except.ok ⟨stG2, bG2⟩,
        ⟨⟨some a2, some r2, env.time 1 + e2 - 60⟩, 3, 1, 2,
          [Event.apiCall Verb.get path params none
              [("Authorization", bearerString s.access_token)],
           Event.refreshCall s.refresh_token,
           Event.apiCall Verb.get path params none
              [("Authorization", bearerString (some a2))]]⟩) := by
    simp [APIClient.get, get_headers, W.init, hfresh, httpSend, hG1, refresh, hre,
          h200, h299, updateTokens, hfresh2, hG2]
  have hp : APIClient.post env path json (W.init s) =
      (Except.ok ⟨stP2, bP2⟩,
        ⟨⟨some a2, some r2, env.time 1 + e2 - 60⟩, 3, 1, 2,
          [Event.apiCall Verb.post path none json
              [("Authorization", bearerString s.access_token)],
           Event.refreshCall s.refresh_token,
           Event.apiCall Verb.post path none json
              [("Authorization", bearerString (some a2))]]⟩) := by
    simp [APIClient.post, get_headers, W.init, hfresh, httpSend, hP1, refresh, hre,
          h200, h299, updateTokens, hfresh2, hP2]
  have hu : APIClient.put env path json (W.init s) =
      (Except.ok ⟨stU2, bU2⟩,
        ⟨⟨some a2, some r2, env.time 1 + e2 - 60⟩, 3, 1, 2,
          [Event.apiCall Verb.put path none json
              [("Authorization", bearerString s.access_token)],
           Event.refreshCall s.refresh_token,
           Event.apiCall Verb.put path none json
              [("Authorization", bearerString (some a2))]]⟩) := by
    simp [APIClient.put, get_headers, W.init, hfresh, httpSend, hU1, refresh, hre,
          h200, h299, updateTokens, hfresh2, hU2]
  have hd : APIClient.delete env path (W.init s) =
      (Except.ok ⟨stD2, bD2⟩,
        ⟨⟨some a2, some r2, env.time 1 + e2 - 60⟩, 3, 1, 2,
          [Event.apiCall Verb.delete path none none
              [("Authorization", bearerString s.access_token)],
           Event.refreshCall s.refresh_token,
           Event.apiCall Verb.delete path none none
              [("Authorization", bearerString (some a2))]]⟩) := by
    simp [APIClient.delete, get_headers, W.init, hfresh, httpSend, hD1, refresh, hre,
          h200, h299, updateTokens, hfresh2, hD2]
  exact ⟨⟨hg, by rw [hg]; rfl, by rw [hg]; rfl⟩, ⟨hp, by rw [hp]; rfl, by rw [hp]; rfl⟩,
         ⟨hu, by rw [hu]; rfl, by rw [hu]; rfl⟩, ⟨hd, by rw [hd]; rfl, by rw [hd]; rfl⟩⟩

/-- Claim C1, witness: concrete run of the amended theorem in which the
retried GET answers 401 again and that second 401 is returned as-is after
exactly one refresh and one retry. -/
theorem C1_retry_witness :
    APIClient.get env401 "/x" none (W.init ⟨some "t0", some "r0", 1000⟩) =
      (Except.ok ⟨401, "unauthorized"⟩,
        ⟨⟨some "t1", some "r1", env401.time 1 + 3600 - 60⟩, 3, 1, 2,
          [Event.apiCall Verb.get "/x" none none
              [("Authorization", bearerString (some "t0"))],
           Event.refreshCall (some "r0"),
           Event.apiCall Verb.get "/x" none none
              [("Authorization", bearerString (some "t1"))]]⟩) ∧
    refreshCount ((APIClient.get env401 "/x" none
        (W.init ⟨some "t0", some "r0", 1000⟩)).2).trace = 1 ∧
    apiCount ((APIClient.get env401 "/x" none
        (W.init ⟨some "t0", some "r0", 1000⟩)).2).trace = 2 :=
  (C1_retry env401 ⟨some "t0", some "r0", 1000⟩ "/x" none (some "payload")
    "unauthorized" "okR" 200 "t1" "r1" 3600 401 401 401 401
    "unauthorized" "unauthorized" "unauthorized" "unauthorized"
    (by decide) rfl (by decide) (by decide) (by decide)
    rfl rfl rfl rfl rfl rfl rfl rfl).1

/-- Claim C2: for every successful login or refresh response carrying
`access_token`, `refresh_token` and `expires_in`, the session's `expires_at`
is set to the issue time (the `time.time()` reading consumed by
`_update_tokens`) plus `expires_in` minus exactly 60 seconds. -/
theorem C2_expiry (cfg : AuthConfig) (env : Env) (w : W)
    (stL stR : Nat) (bL bR aL rL aR rR : String) (eL eR : Int)
    (hL : env.loginResult = ProviderResult.response stL bL ⟨some aL, some rL, some eL⟩)
    (hLs : 200 ≤ stL ∧ stL ≤ 299)
    (hR : env.refreshResult w.session.refresh_token w.nRefresh
        = ProviderResult.response stR bR ⟨some aR, some rR, some eR⟩)
    (hRs : 200 ≤ stR ∧ stR ≤ 299) :
    ((login cfg env w).2).session.expires_at = env.time w.clock + eL - 60 ∧
    ((refresh env w).2).session.expires_at = env.time w.clock + eR - 60 := by
  constructor
  · simp [login, hL, hLs, updateTokens]
  · simp [refresh, hR, hRs, updateTokens]

/-- Claim C2, witness: at issue time 100 with lifetime 3600, both login and
refresh leave `expires_at` at 100 + 3600 - 60. -/
theorem C2_expiry_witness :
    ((login cfg0 env200 (W.init Session.init)).2).session.expires_at
      = env200.time 0 + 3600 - 60 ∧
    ((refresh env200 (W.init Session.init)).2).session.expires_at
      = env200.time 0 + 3600 - 60 :=
  C2_expiry cfg0 env200 (W.init Session.init) 200 200 "okL" "okR" "tl" "rl" "t1" "r1"
    3600 3600 rfl (by decide) rfl (by decide)

/-- Claim C3: `get_headers` returns the single-entry mapping
`Authorization: Bearer <access_token>`; called with `now < expires_at` it
performs no network call (state changes only by the clock tick) and uses the
current access token; called with `now >= expires_at` it performs exactly one
refresh call (the trace gains exactly one `refreshCall` event) before
building and returning the headers from the refreshed token. -/
theorem C3_getHeaders (env : Env) (w : W) :
    (¬ w.session.expires_at ≤ env.time w.clock →
      get_headers env w =
        (Except.ok [("Authorization", bearerString w.session.access_token)],
          { w with clock := w.clock + 1 })) ∧
    (w.session.expires_at ≤ env.time w.clock →
      ((get_headers env w).2).trace
          = w.trace ++ [Event.refreshCall w.session.refresh_token] ∧
      (∀ st b a r e,
        env.refreshResult w.session.refresh_token w.nRefresh
            = ProviderResult.response st b ⟨some a, some r, some e⟩ →
        200 ≤ st → st ≤ 299 →
        get_headers env w =
          (Except.ok [("Authorization", bearerString (some a))],
            ⟨⟨some a, some r, env.time (w.clock + 1) + e - 60⟩,
              w.clock + 2, w.nRefresh + 1, w.nApi,
              w.trace ++ [Event.refreshCall w.session.refresh_token]⟩))) := by
  constructor
  · intro h
    simp [get_headers, h]
  · intro h
    constructor
    · have ht := refresh_trace env { w with clock := w.clock + 1 }
      rcases hr : refresh env { w with clock := w.clock + 1 } with ⟨r2, w2⟩
      rw [hr] at ht
      simp only [get_headers, if_pos h]
      rw [hr]
      cases r2 <;> simpa using ht
    · intro st b a r e hre h200 h299
      simp [get_headers, if_pos h, refresh, hre, h200, h299, updateTokens]

/-- Claim C3, witness: with an unexpired session the headers carry the
current token with no network call; with the expired fresh session one
refresh happens and the headers carry the refreshed token. -/
theorem C3_getHeaders_witness :
    (get_headers env200 (W.init ⟨some "t0", some "r0", 1000⟩) =
      (Except.ok [("Authorization", bearerString (some "t0"))],
        { W.init ⟨some "t0", some "r0", 1000⟩ with clock := 1 })) ∧
    (get_headers env200 (W.init Session.init) =
      (Except.ok [("Authorization", bearerString (some "t1"))],
        ⟨⟨some "t1", some "r1", env200.time 1 + 3600 - 60⟩, 2, 1, 0,
          [Event.refreshCall none]⟩)) :=
  ⟨(C3_getHeaders env200 (W.init ⟨some "t0", some "r0", 1000⟩)).1 (by decide),
   ((C3_getHeaders env200 (W.init Session.init)).2 (by decide)).2 200 "okR" "t1" "r1" 3600
     rfl (by decide) (by decide)⟩

/-- Claim C4, counterexample: a 200 login response whose body carries
`access_token` but no `refresh_token` updates `access_token` alone — after
the run the session holds the new access token next to the old refresh
token, so the two token fields are not always updated together. -/
theorem C4_counterexample :
    login cfg0 envMalformed (W.init ⟨some "oldA", some "oldR", 1000⟩) =
      (Except.error (Err.keyError "refresh_token"),
        ⟨⟨some "newA", some "oldR", 1000⟩, 0, 0, 0,
          [Event.loginCall cfg0.email cfg0.password]⟩) ∧
    ((login cfg0 envMalformed (W.init ⟨some "oldA", some "oldR", 1000⟩)).2).session.access_token
        = some "newA" ∧
    ((login cfg0 envMalformed (W.init ⟨some "oldA", some "oldR", 1000⟩)).2).session.refresh_token
        = some "oldR" :=
  ⟨rfl, rfl, rfl⟩

/-- Claim C4 (amended): for every successful login or refresh response whose
body contains both `access_token` and `refresh_token` (whatever the
`expires_in` field), the session's two token fields are updated together
from that single response. -/
theorem C4_tokensTogether (cfg : AuthConfig) (env : Env) (w : W)
    (stL stR : Nat) (bL bR aL rL aR rR : String) (eL eR : Option Int)
    (hL : env.loginResult = ProviderResult.response stL bL ⟨some aL, some rL, eL⟩)
    (hLs : 200 ≤ stL ∧ stL ≤ 299)
    (hR : env.refreshResult w.session.refresh_token w.nRefresh
        = ProviderResult.response stR bR ⟨some aR, some rR, eR⟩)
    (hRs : 200 ≤ stR ∧ stR ≤ 299) :
    (((login cfg env w).2).session.access_token = some aL ∧
     ((login cfg env w).2).session.refresh_token = some rL) ∧
    (((refresh env w).2).session.access_token = some aR ∧
     ((refresh env w).2).session.refresh_token = some rR) := by
  constructor
  · cases eL <;> simp [login, hL, hLs, updateTokens]
  · cases eR <;> simp [refresh, hR, hRs, updateTokens]

/-- Claim C4, witness: the well-formed 200 responses of `env200` update both
token fields together on login and on refresh. -/
theorem C4_tokensTogether_witness :
    (((login cfg0 env200 (W.init Session.init)).2).session.access_token = some "tl" ∧
     ((login cfg0 env200 (W.init Session.init)).2).session.refresh_token = some "rl") ∧
    (((refresh env200 (W.init Session.init)).2).session.access_token = some "t1" ∧
     ((refresh env200 (W.init Session.init)).2).session.refresh_token = some "r1") :=
  C4_tokensTogether cfg0 env200 (W.init Session.init) 200 200 "okL" "okR" "tl" "rl" "t1" "r1"
    (some 3600) (some 3600) rfl (by decide) rfl (by decide)

/-- Claim C5, counterexample: the claim says a non-401 first response means
zero refresh calls, but with the session expired at entry the initial header
fetch performs a proactive refresh, so a 200-answered GET still carries one
refresh call in its trace. -/
theorem C5_counterexample :
    env200.apiResult Verb.get "/x" none none [("Authorization", "Bearer t1")] 0
      = ApiResult.response 200 "okbody" ∧
    (APIClient.get env200 "/x" none (W.init ⟨some "t0", some "r0", 0⟩)).1
      = Except.ok ⟨200, "okbody"⟩ ∧
    ((APIClient.get env200 "/x" none (W.init ⟨some "t0", some "r0", 0⟩)).2).trace
      = [Event.refreshCall (some "r0"),
         Event.apiCall Verb.get "/x" none none [("Authorization", "Bearer t1")]] ∧
    refreshCount ((APIClient.get env200 "/x" none (W.init ⟨some "t0", some "r0", 0⟩)).2).trace
      = 1 :=
  ⟨rfl, rfl, rfl, rfl⟩

/-- Claim C5 (amended): for every verb, when the session is unexpired at the
initial header fetch and the first response status is not 401, the operation
performs zero refresh calls (the final trace holds exactly the one API call)
and returns that original response unmodified. -/
theorem C5_passthrough (env : Env) (s : Session) (path : String)
    (params json : Option String) (stG stP stU stD : Nat) (bG bP bU bD : String)
    (hfresh : ¬ s.expires_at ≤ env.time 0)
    (hG : env.apiResult Verb.get path params none
        [("Authorization", bearerString s.access_token)] 0 = ApiResult.response stG bG)
    (hP : env.apiResult Verb.post path none json
        [("Authorization", bearerString s.access_token)] 0 = ApiResult.response stP bP)
    (hU : env.apiResult Verb.put path none json
        [("Authorization", bearerString s.access_token)] 0 = ApiResult.response stU bU)
    (hD : env.apiResult Verb.delete path none none
        [("Authorization", bearerString s.access_token)] 0 = ApiResult.response stD bD)
    (hsG : stG ≠ 401) (hsP : stP ≠ 401) (hsU : stU ≠ 401) (hsD : stD ≠ 401) :
    APIClient.get env path params (W.init s) =
      (Except.ok ⟨stG, bG⟩,
        ⟨s, 1, 0, 1, [Event.apiCall Verb.get path params none
            [("Authorization", bearerString s.access_token)]]⟩) ∧
    APIClient.post env path json (W.init s) =
      (Except.ok ⟨stP, bP⟩,
        ⟨s, 1, 0, 1, [Event.apiCall Verb.post path none json
            [("Authorization", bearerString s.access_token)]]⟩) ∧
    APIClient.put env path json (W.init s) =
      (Except.ok ⟨stU, bU⟩,
        ⟨s, 1, 0, 1, [Event.apiCall Verb.put path none json
            [("Authorization", bearerString s.access_token)]]⟩) ∧
    APIClient.delete env path (W.init s) =
      (Except.ok ⟨stD, bD⟩,
        ⟨s, 1, 0, 1, [Event.apiCall Verb.delete path none none
            [("Authorization", bearerString s.access_token)]]⟩) := by
  refine ⟨?_, ?_, ?_, ?_⟩
  · simp [APIClient.get, get_headers, W.init, hfresh, httpSend, hG, hsG]
  · simp [APIClient.post, get_headers, W.init, hfresh, httpSend, hP, hsP]
  · simp [APIClient.put, get_headers, W.init, hfresh, httpSend, hU, hsU]
  · simp [APIClient.delete, get_headers, W.init, hfresh, httpSend, hD, hsD]

/-- Claim C5, witness: with an unexpired session, 200 responses pass through
unmodified on all four verbs, with no refresh event in any trace. -/
theorem C5_passthrough_witness :
    APIClient.get env200 "/x" none (W.init ⟨some "t0", some "r0", 1000⟩) =
      (Except.ok ⟨200, "okbody"⟩,
        ⟨⟨some "t0", some "r0", 1000⟩, 1, 0, 1, [Event.apiCall Verb.get "/x" none none
            [("Authorization", bearerString (some "t0"))]]⟩) ∧
    APIClient.post env200 "/x" (some "payload") (W.init ⟨some "t0", some "r0", 1000⟩) =
      (Except.ok ⟨200, "okbody"⟩,
        ⟨⟨some "t0", some "r0", 1000⟩, 1, 0, 1, [Event.apiCall Verb.post "/x" none (some "payload")
            [("Authorization", bearerString (some "t0"))]]⟩) ∧
    APIClient.put env200 "/x" (some "payload") (W.init ⟨some "t0", some "r0", 1000⟩) =
      (Except.ok ⟨200, "okbody"⟩,
        ⟨⟨some "t0", some "r0", 1000⟩, 1, 0, 1, [Event.apiCall Verb.put "/x" none (some "payload")
            [("Authorization", bearerString (some "t0"))]]⟩) ∧
    APIClient.delete env200 "/x" (W.init ⟨some "t0", some "r0", 1000⟩) =
      (Except.ok ⟨200, "okbody"⟩,
        ⟨⟨some "t0", some "r0", 1000⟩, 1, 0, 1, [Event.apiCall Verb.delete "/x" none none
            [("Authorization", bearerString (some "t0"))]]⟩) :=
  C5_passthrough env200 ⟨some "t0", some "r0", 1000⟩ "/x" none (some "payload")
    200 200 200 200 "okbody" "okbody" "okbody" "okbody"
    (by decide) rfl rfl rfl rfl (by decide) (by decide) (by decide) (by decide)

/-- Claim C6: login and refresh fail with an `authFailure` carrying the
response status and body whenever the provider answers a non-success status;
the trace gains exactly the one provider call, so a rejected refresh is not
retried internally. -/
theorem C6_authFailure (cfg : AuthConfig) (env : Env) (w : W)
    (stL stR : Nat) (bL bR : String) (dL dR : TokenData)
    (hL : env.loginResult = ProviderResult.response stL bL dL)
    (hLs : ¬(200 ≤ stL ∧ stL ≤ 299))
    (hR : env.refreshResult w.session.refresh_token w.nRefresh
        = ProviderResult.response stR bR dR)
    (hRs : ¬(200 ≤ stR ∧ stR ≤ 299)) :
    login cfg env w =
      (Except.error (Err.authFailure stL bL),
        { w with trace := w.trace ++ [Event.loginCall cfg.email cfg.password] }) ∧
    refresh env w =
      (Except.error (Err.authFailure stR bR),
        { w with trace := w.trace ++ [Event.refreshCall w.session.refresh_token],
                 nRefresh := w.nRefresh + 1 }) := by
  constructor
  · simp [login, hL, hLs]
  · simp [refresh, hR, hRs]

/-- Claim C6, witness: a 400 from the provider turns into an `authFailure`
carrying status 400 and the diagnostic body, for login and for refresh. -/
theorem C6_authFailure_witness :
    login cfg0 envReject (W.init Session.init) =
      (Except.error (Err.authFailure 400 "bad credentials"),
        { W.init Session.init with
            trace := (W.init Session.init).trace
              ++ [Event.loginCall cfg0.email cfg0.password] }) ∧
    refresh envReject (W.init Session.init) =
      (Except.error (Err.authFailure 400 "invalid refresh token"),
        { W.init Session.init with
            trace := (W.init Session.init).trace ++ [Event.refreshCall none],
            nRefresh := 1 }) :=
  C6_authFailure cfg0 envReject (W.init Session.init) 400 400
    "bad credentials" "invalid refresh token" ⟨none, none, none⟩ ⟨none, none, none⟩
    rfl (by decide) rfl (by decide)

/-- Claim C7: for every verb, when the first call (issued with the headers
`h1` obtained from `get_headers`) answers exactly 401 and the forced refresh
itself fails with error `er`, the operation returns that refresh error (so
the original 401 response is not returned), and no retried HTTP call is
issued: the final trace extends the pre-call trace by exactly the one API
call and the one failing refresh call. -/
theorem C7_refreshFailureAborts (env : Env) (w w1 w3G w3P w3U w3D : W)
    (h1 : List (String × String)) (path : String) (params json : Option String)
    (b1 : String) (er : Err)
    (hgh : get_headers env w = (Except.ok h1, w1))
    (hG401 : env.apiResult Verb.get path params none h1 w1.nApi = ApiResult.response 401 b1)
    (hP401 : env.apiResult Verb.post path none json h1 w1.nApi = ApiResult.response 401 b1)
    (hU401 : env.apiResult Verb.put path none json h1 w1.nApi = ApiResult.response 401 b1)
    (hD401 : env.apiResult Verb.delete path none none h1 w1.nApi = ApiResult.response 401 b1)
    (hreG : refresh env ⟨w1.session, w1.clock, w1.nRefresh, w1.nApi + 1,
        w1.trace ++ [Event.apiCall Verb.get path params none h1]⟩
        = (Except.error er, w3G))
    (hreP : refresh env ⟨w1.session, w1.clock, w1.nRefresh, w1.nApi + 1,
        w1.trace ++ [Event.apiCall Verb.post path none json h1]⟩
        = (Except.error er, w3P))
    (hreU : refresh env ⟨w1.session, w1.clock, w1.nRefresh, w1.nApi + 1,
        w1.trace ++ [Event.apiCall Verb.put path none json h1]⟩
        = (Except.error er, w3U))
    (hreD : refresh env ⟨w1.session, w1.clock, w1.nRefresh, w1.nApi + 1,
        w1.trace ++ [Event.apiCall Verb.delete path none none h1]⟩
        = (Except.error er, w3D)) :
    (APIClient.get env path params w = (Except.error er, w3G) ∧
      w3G.trace = w1.trace ++ [Event.apiCall Verb.get path params none h1,
        Event.refreshCall w1.session.refresh_token] ∧
      apiCount w3G.trace = apiCount w1.trace + 1) ∧
    (APIClient.post env path json w = (Except.error er, w3P) ∧
      w3P.trace = w1.trace ++ [Event.apiCall Verb.post path none json h1,
        Event.refreshCall w1.session.refresh_token] ∧
      apiCount w3P.trace = apiCount w1.trace + 1) ∧
    (APIClient.put env path json w = (Except.error er, w3U) ∧
      w3U.trace = w1.trace ++ [Event.apiCall Verb.put path none json h1,
        Event.refreshCall w1.session.refresh_token] ∧
      apiCount w3U.trace = apiCount w1.trace + 1) ∧
    (APIClient.delete env path w = (Except.error er, w3D) ∧
      w3D.trace = w1.trace ++ [Event.apiCall Verb.delete path none none h1,
        Event.refreshCall w1.session.refresh_token] ∧
      apiCount w3D.trace = apiCount w1.trace + 1) := by
  have tG : w3G.trace = w1.trace ++ [Event.apiCall Verb.get path params none h1,
      Event.refreshCall w1.session.refresh_token] := by
    have ht := refresh_trace env ⟨w1.session, w1.clock, w1.nRefresh, w1.nApi + 1,
        w1.trace ++ [Event.apiCall Verb.get path params none h1]⟩
    rw [hreG] at ht
    simpa using ht
  have tP : w3P.trace = w1.trace ++ [Event.apiCall Verb.post path none json h1,
      Event.refreshCall w1.session.refresh_token] := by
    have ht := refresh_trace env ⟨w1.session, w1.clock, w1.nRefresh, w1.nApi + 1,
        w1.trace ++ [Event.apiCall Verb.post path none json h1]⟩
    rw [hreP] at ht
    simpa using ht
  have tU : w3U.trace = w1.trace ++ [Event.apiCall Verb.put path none json h1,
      Event.refreshCall w1.session.refresh_token] := by
    have ht := refresh_trace env ⟨w1.session, w1.clock, w1.nRefresh, w1.nApi + 1,
        w1.trace ++ [Event.apiCall Verb.put path none json h1]⟩
    rw [hreU] at ht
    simpa using ht
  have tD : w3D.trace = w1.trace ++ [Event.apiCall Verb.delete path none none h1,
      Event.refreshCall w1.session.refresh_token] := by
    have ht := refresh_trace env ⟨w1.session, w1.clock, w1.nRefresh, w1.nApi + 1,
        w1.trace ++ [Event.apiCall Verb.delete path none none h1]⟩
    rw [hreD] at ht
    simpa using ht
  refine ⟨⟨?_, tG, ?_⟩, ⟨?_, tP, ?_⟩, ⟨?_, tU, ?_⟩, ⟨?_, tD, ?_⟩⟩
  · simp [APIClient.get, hgh, httpSend, hG401, hreG]
  · rw [tG]; simp [apiCount, List.filter_append, isApiEvent]
  · simp [APIClient.post, hgh, httpSend, hP401, hreP]
  · rw [tP]; simp [apiCount, List.filter_append, isApiEvent]
  · simp [APIClient.put, hgh, httpSend, hU401, hreU]
  · rw [tU]; simp [apiCount, List.filter_append, isApiEvent]
  · simp [APIClient.delete, hgh, httpSend, hD401, hreD]
  · rw [tD]; simp [apiCount, List.filter_append, isApiEvent]

/-- Claim C7, witness: a GET that answers 401 followed by a provider 400 on
the forced refresh makes the client return the `authFailure` of the refresh,
with exactly one API call in the trace (no retry) and no 401 result. -/
theorem C7_refreshFailureAborts_witness :
    APIClient.get envReject "/x" none (W.init ⟨some "t0", some "r0", 1000⟩) =
      (Except.error (Err.authFailure 400 "invalid refresh token"),
        ⟨⟨some "t0", some "r0", 1000⟩, 1, 1, 1,
          [Event.apiCall Verb.get "/x" none none [("Authorization", "Bearer t0")],
           Event.refreshCall (some "r0")]⟩) ∧
    (⟨⟨some "t0", some "r0", 1000⟩, 1, 1, 1,
        [Event.apiCall Verb.get "/x" none none [("Authorization", "Bearer t0")],
         Event.refreshCall (some "r0")]⟩ : W).trace =
      [Event.apiCall Verb.get "/x" none none [("Authorization", "Bearer t0")],
       Event.refreshCall (some "r0")] ∧
    apiCount (⟨⟨some "t0", some "r0", 1000⟩, 1, 1, 1,
        [Event.apiCall Verb.get "/x" none none [("Authorization", "Bearer t0")],
         Event.refreshCall (some "r0")]⟩ : W).trace = 1 :=
  (C7_refreshFailureAborts envReject
    (W.init ⟨some "t0", some "r0", 1000⟩)
    ⟨⟨some "t0", some "r0", 1000⟩, 1, 0, 0, []⟩
    ⟨⟨some "t0", some "r0", 1000⟩, 1, 1, 1,
      [Event.apiCall Verb.get "/x" none none [("Authorization", "Bearer t0")],
       Event.refreshCall (some "r0")]⟩
    ⟨⟨some "t0", some "r0", 1000⟩, 1, 1, 1,
      [Event.apiCall Verb.post "/x" none (some "payload") [("Authorization", "Bearer t0")],
       Event.refreshCall (some "r0")]⟩
    ⟨⟨some "t0", some "r0", 1000⟩, 1, 1, 1,
      [Event.apiCall Verb.put "/x" none (some "payload") [("Authorization", "Bearer t0")],
       Event.refreshCall (some "r0")]⟩
    ⟨⟨some "t0", some "r0", 1000⟩, 1, 1, 1,
      [Event.apiCall Verb.delete "/x" none none [("Authorization", "Bearer t0")],
       Event.refreshCall (some "r0")]⟩
    [("Authorization", "Bearer t0")] "/x" none (some "payload") "unauthorized"
    (Err.authFailure 400 "invalid refresh token")
    rfl rfl rfl rfl rfl rfl rfl rfl rfl).1

/-- Claim C8, counterexample: the claim says a transport failure is
propagated with zero refresh calls, but with the session expired at entry
the initial header fetch performs a proactive refresh before the failing
call, so the trace of a timed-out GET carries one refresh call. -/
theorem C8_counterexample :
    envTimeout.apiResult Verb.get "/x" none none [("Authorization", "Bearer t1")] 0
      = ApiResult.transport "timeout" ∧
    (APIClient.get envTimeout "/x" none (W.init ⟨some "t0", some "r0", 0⟩)).1
      = Except.error (Err.transportFailure "timeout") ∧
    ((APIClient.get envTimeout "/x" none (W.init ⟨some "t0", some "r0", 0⟩)).2).trace
      = [Event.refreshCall (some "r0"),
         Event.apiCall Verb.get "/x" none none [("Authorization", "Bearer t1")]] ∧
    refreshCount ((APIClient.get envTimeout "/x" none (W.init ⟨some "t0", some "r0", 0⟩)).2).trace
      = 1 :=
  ⟨rfl, rfl, rfl, rfl⟩

/-- Claim C8 (amended): for every verb, when the session is unexpired at the
initial header fetch and the call fails at the transport level, the failure
is propagated to the caller as-is with zero refresh calls and zero retries:
the final trace holds exactly the one failing API call. -/
theorem C8_transport (env : Env) (s : Session) (path : String)
    (params json : Option String) (mG mP mU mD : String)
    (hfresh : ¬ s.expires_at ≤ env.time 0)
    (hG : env.apiResult Verb.get path params none
        [("Authorization", bearerString s.access_token)] 0 = ApiResult.transport mG)
    (hP : env.apiResult Verb.post path none json
        [("Authorization", bearerString s.access_token)] 0 = ApiResult.transport mP)
    (hU : env.apiResult Verb.put path none json
        [("Authorization", bearerString s.access_token)] 0 = ApiResult.transport mU)
    (hD : env.apiResult Verb.delete path none none
        [("Authorization", bearerString s.access_token)] 0 = ApiResult.transport mD) :
    APIClient.get env path params (W.init s) =
      (Except.error (Err.transportFailure mG),
        ⟨s, 1, 0, 1, [Event.apiCall Verb.get path params none
            [("Authorization", bearerString s.access_token)]]⟩) ∧
    APIClient.post env path json (W.init s) =
      (Except.error (Err.transportFailure mP),
        ⟨s, 1, 0, 1, [Event.apiCall Verb.post path none json
            [("Authorization", bearerString s.access_token)]]⟩) ∧
    APIClient.put env path json (W.init s) =
      (Except.error (Err.transportFailure mU),
        ⟨s, 1, 0, 1, [Event.apiCall Verb.put path none json
            [("Authorization", bearerString s.access_token)]]⟩) ∧
    APIClient.delete env path (W.init s) =
      (Except.error (Err.transportFailure mD),
        ⟨s, 1, 0, 1, [Event.apiCall Verb.delete path none none
            [("Authorization", bearerString s.access_token)]]⟩) := by
  refine ⟨?_, ?_, ?_, ?_⟩
  · simp [APIClient.get, get_headers, W.init, hfresh, httpSend, hG]
  · simp [APIClient.post, get_headers, W.init, hfresh, httpSend, hP]
  · simp [APIClient.put, get_headers, W.init, hfresh, httpSend, hU]
  · simp [APIClient.delete, get_headers, W.init, hfresh, httpSend, hD]

/-- Claim C8, witness: a timed-out call on each verb with an unexpired
session yields the transport failure with no refresh event in the trace. -/
theorem C8_transport_witness :
    APIClient.get envTimeout "/x" none (W.init ⟨some "t0", some "r0", 1000⟩) =
      (Except.error (Err.transportFailure "timeout"),
        ⟨⟨some "t0", some "r0", 1000⟩, 1, 0, 1, [Event.apiCall Verb.get "/x" none none
            [("Authorization", bearerString (some "t0"))]]⟩) ∧
    APIClient.post envTimeout "/x" (some "payload") (W.init ⟨some "t0", some "r0", 1000⟩) =
      (Except.error (Err.transportFailure "timeout"),
        ⟨⟨some "t0", some "r0", 1000⟩, 1, 0, 1, [Event.apiCall Verb.post "/x" none (some "payload")
            [("Authorization", bearerString (some "t0"))]]⟩) ∧
    APIClient.put envTimeout "/x" (some "payload") (W.init ⟨some "t0", some "r0", 1000⟩) =
      (Except.error (Err.transportFailure "timeout"),
        ⟨⟨some "t0", some "r0", 1000⟩, 1, 0, 1, [Event.apiCall Verb.put "/x" none (some "payload")
            [("Authorization", bearerString (some "t0"))]]⟩) ∧
    APIClient.delete envTimeout "/x" (W.init ⟨some "t0", some "r0", 1000⟩) =
      (Except.error (Err.transportFailure "timeout"),
        ⟨⟨some "t0", some "r0", 1000⟩, 1, 0, 1, [Event.apiCall Verb.delete "/x" none none
            [("Authorization", bearerString (some "t0"))]]⟩) :=
  C8_transport envTimeout ⟨some "t0", some "r0", 1000⟩ "/x" none (some "payload")
    "timeout" "timeout" "timeout" "timeout" (by decide) rfl rfl rfl rfl

/-- Claim C9: when the provider answers a non-success status, login and
refresh leave the session completely unchanged — the failure is raised
before any token update. -/
theorem C9_failureLeavesSession (cfg : AuthConfig) (env : Env) (w : W)
    (stL stR : Nat) (bL bR : String) (dL dR : TokenData)
    (hL : env.loginResult = ProviderResult.response stL bL dL)
    (hLs : ¬(200 ≤ stL ∧ stL ≤ 299))
    (hR : env.refreshResult w.session.refresh_token w.nRefresh
        = ProviderResult.response stR bR dR)
    (hRs : ¬(200 ≤ stR ∧ stR ≤ 299)) :
    ((login cfg env w).2).session = w.session ∧
    ((refresh env w).2).session = w.session := by
  constructor
  · simp [login, hL, hLs]
  · simp [refresh, hR, hRs]

/-- Claim C9, witness: after a 400 on login and on refresh, the session still
holds its pre-call tokens and expiry. -/
theorem C9_failureLeavesSession_witness :
    ((login cfg0 envReject (W.init ⟨some "t0", some "r0", 1000⟩)).2).session
      = ⟨some "t0", some "r0", 1000⟩ ∧
    ((refresh envReject (W.init ⟨some "t0", some "r0", 1000⟩)).2).session
      = ⟨some "t0", some "r0", 1000⟩ :=
  C9_failureLeavesSession cfg0 envReject (W.init ⟨some "t0", some "r0", 1000⟩) 400 400
    "bad credentials" "invalid refresh token" ⟨none, none, none⟩ ⟨none, none, none⟩
    rfl (by decide) rfl (by decide)

/-- Claim C10: a fresh credential manager has absent tokens and expiry 0, so
any `get_headers` call at a non-negative clock takes the expired branch and
invokes refresh with an absent (`none`) refresh token sent to the provider,
performing no login and failing with no local precondition error — when the
provider accepts, headers are returned from the granted token. -/
theorem C10_freshManager (env : Env) (hnow : 0 ≤ env.time 0) :
    Session.init = ⟨none, none, 0⟩ ∧
    ((get_headers env (W.init Session.init)).2).trace = [Event.refreshCall none] ∧
    loginCount ((get_headers env (W.init Session.init)).2).trace = 0 ∧
    (∀ st b a r e,
      env.refreshResult none 0 = ProviderResult.response st b ⟨some a, some r, some e⟩ →
      200 ≤ st → st ≤ 299 →
      (get_headers env (W.init Session.init)).1
        = Except.ok [("Authorization", bearerString (some a))]) := by
  have htrace : ((get_headers env (W.init Session.init)).2).trace = [Event.refreshCall none] := by
    have ht := refresh_trace env ⟨⟨none, none, 0⟩, 1, 0, 0, []⟩
    rcases hr : refresh env ⟨⟨none, none, 0⟩, 1, 0, 0, []⟩ with ⟨r2, w2⟩
    rw [hr] at ht
    simp only [get_headers, W.init, Session.init, Nat.zero_add]
    rw [if_pos hnow, hr]
    cases r2 <;> simpa using ht
  refine ⟨rfl, htrace, ?_, ?_⟩
  · rw [htrace]; decide
  · intro st b a r e hre h200 h299
    simp [get_headers, W.init, Session.init, hnow, refresh, hre, h200, h299, updateTokens]

/-- Claim C10, witness: at clock 100 the fresh manager refreshes with a
`none` refresh token and returns headers from the granted token t1. -/
theorem C10_freshManager_witness :
    Session.init = ⟨none, none, 0⟩ ∧
    ((get_headers env200 (W.init Session.init)).2).trace = [Event.refreshCall none] ∧
    loginCount ((get_headers env200 (W.init Session.init)).2).trace = 0 ∧
    (get_headers env200 (W.init Session.init)).1
      = Except.ok [("Authorization", bearerString (some "t1"))] :=
  ⟨(C10_freshManager env200 (by decide)).1,
   (C10_freshManager env200 (by decide)).2.1,
   (C10_freshManager env200 (by decide)).2.2.1,
   (C10_freshManager env200 (by decide)).2.2.2 200 "okR" "t1" "r1" 3600 rfl
     (by decide) (by decide)⟩
